import Mathlib

/-!
Shallow embedding of `src/ihome_racing.py` (iRacing → MQTT telemetry bridge).

Conventions of the embedding:
* Python floats are modelled as rationals (`ℚ`); `int(x)` is truncation toward
  zero; `round(x, 1)` is round-half-to-even at one decimal.
* Python `None` is `Option.none`; a value published over MQTT is a `Val`
  (null, integer, rational, string, or one of the two JSON track payloads,
  whose JSON encoding is kept abstract).
* Python `dict` literals follow insertion-order semantics: a repeated key
  keeps its first position and its last value (`dictOfList`).
* `time.gmtime(None)` yields the current time, so the formatting of
  `session_time_remain` takes the current clock `now` (seconds) as a
  parameter.
* The yaml configuration read by `get_config()` is a `Config` record passed
  explicitly; logging is abstracted, except that the warning emitted by
  `session_state_mapped` is returned as a boolean flag.
-/

namespace IHomeRacing

/-- Python `int(q)`: truncation toward zero. -/
def pyTrunc (q : ℚ) : ℤ := if 0 ≤ q then q.floor else -((-q).floor)

/-- Round-half-to-even to the nearest integer, as Python `round` does. -/
def rndHalfEven (q : ℚ) : ℤ :=
  if q - q.floor < 1/2 then q.floor
  else if 1/2 < q - q.floor then q.floor + 1
  else if q.floor % 2 = 0 then q.floor else q.floor + 1

/-- Python `round(q, 1)`: round to one decimal place. -/
def pyRound1 (q : ℚ) : ℚ := (rndHalfEven (q * 10) : ℚ) / 10

/-- An MQTT payload value: Python `None`, an int, a float, a string, or one
of the two JSON-encoded track payloads (JSON encoding kept abstract). -/
inductive Val where
  | vnull : Val
  | vint (n : ℤ) : Val
  | vrat (q : ℚ) : Val
  | vstr (s : String) : Val
  | vattrs (latitude longitude : String) : Val
  | vtemp (temperature : ℚ) : Val
deriving DecidableEq

/-- A published MQTT message: full topic and payload. -/
def Msg : Type := String × Val

instance : DecidableEq Msg := instDecidableEqProd

def optStr : Option String → Val
  | none => .vnull
  | some s => .vstr s

def optInt : Option ℤ → Val
  | none => .vnull
  | some n => .vint n

def optRat : Option ℚ → Val
  | none => .vnull
  | some q => .vrat q

/-- Insert one key/value pair with Python `dict` semantics: a repeated key
keeps its first position and takes the new value. -/
def dictInsert (d : List (String × Val)) (k : String) (v : Val) :
    List (String × Val) :=
  if d.any (fun p => p.1 == k) then
    d.map (fun p => if p.1 == k then (k, v) else p)
  else d ++ [(k, v)]

/-- A Python `dict` literal, from its insertion-ordered pair list. -/
def dictOfList (ps : List (String × Val)) : List (String × Val) :=
  ps.foldl (fun d p => dictInsert d p.1 p.2) []

/-- `sessionSateMap` (name kept from the source, typo included): the fixed
session-state lookup table. -/
def sessionSateMap : List (ℤ × String) :=
  [(0, "Venter"), (1, "Gjør seg klar"), (2, "Oppvarming"),
   (3, "Kjører til start"), (4, "Racing"), (5, "I mål"), (6, "Cooldown")]

/-- `sessionSateMap[k]`: a Python dict subscript, raising `KeyError`
(modelled as `Except.error`) for a missing key. -/
def sessionSateMapLookup (k : ℤ) : Except Unit String :=
  match sessionSateMap.lookup k with
  | some v => .ok v
  | none => .error ()

/-- `Car` (engine data). `rpm`, `speed` (m/s) and `fuel_percent` (a 0–1
fraction, despite the name) are floats; `gear` is an int. -/
structure Car where
  rpm : ℚ
  speed : ℚ
  fuel_percent : ℚ
  gear : ℤ
deriving DecidableEq

/-- `Car()`: the all-default idle car. -/
def Car.idle : Car := ⟨0, 0, 0, 0⟩

/-- `Car.sensors`: the per-field payload dict, in insertion order. -/
def Car.sensors (c : Car) : List (String × Val) :=
  dictOfList
    [("rpm", .vint (pyTrunc c.rpm)),
     ("speed", .vint (pyTrunc (c.speed * (36/10)))),
     ("fuel_percent", .vrat (pyRound1 (c.fuel_percent * 100))),
     ("gear", .vint c.gear)]

/-- `Session` (session data); every field defaults to `None` in the source,
and `session_state` is in fact the integer code delivered by the SDK. -/
structure Session where
  event_type : Option String
  current_session_type : Option String
  session_laps_total : Option ℤ
  session_time_remain : Option ℕ
  lap_best_lap_time : Option ℚ
  lap_completed : Option ℤ
  player_car_class_position : Option ℤ
  track_name : Option String
  car_name : Option String
  session_state : Option ℤ

/-- `Session()`: the all-`None` idle session. -/
def Session.idle : Session :=
  ⟨none, none, none, none, none, none, none, none, none, none⟩

/-- `session_state_mapped`: the guard `if self.session_state:` is Python
truthiness (false for `None` and for `0`, both returning `None`); otherwise
the table subscript is tried and a `KeyError` is caught, logging a warning
(the returned boolean) and passing the raw value through. -/
def session_state_mapped (st : Option ℤ) : Val × Bool :=
  match st with
  | none => (.vnull, false)
  | some k =>
    if k == 0 then (.vnull, false)
    else
      match sessionSateMapLookup k with
      | .ok lbl => (.vstr lbl, false)
      | .error _ => (.vint k, true)

/-- Two-digit zero-padded decimal, as `%H`/`%M`/`%S` render. -/
def pad2 (n : ℕ) : String := if n < 10 then "0" ++ toString n else toString n

/-- `time.strftime("%H:%M:%S", time.gmtime(t))` for a second count `t`. -/
def hhmmss (t : ℕ) : String :=
  pad2 (t / 3600 % 24) ++ ":" ++ pad2 (t / 60 % 60) ++ ":" ++ pad2 (t % 60)

/-- `Session.sensors`: the payload dict literal, in source order, with the
duplicated `session_state` key. `time.gmtime(None)` is the current clock
`now`. -/
def Session.sensors (s : Session) (now : ℕ) : List (String × Val) :=
  dictOfList
    [("event_type", optStr s.event_type),
     ("session_laps_total", optInt s.session_laps_total),
     ("session_time_remain", .vstr (hhmmss (s.session_time_remain.getD now))),
     ("session_state", optInt s.session_state),
     ("lap_best_lap_time", optRat s.lap_best_lap_time),
     ("current_session_type", optStr s.current_session_type),
     ("lap_completed", optInt s.lap_completed),
     ("player_car_class_position", optInt s.player_car_class_position),
     ("track_name", optStr s.track_name),
     ("car_name", optStr s.car_name),
     ("session_state", (session_state_mapped s.session_state).1)]

/-- The configuration record (yaml file): home coordinates and base topic. -/
structure Config where
  homeLat : String
  homeLon : String
  baseTopic : String

/-- `Track`: temperature plus raw coordinate strings. -/
structure Track where
  temperature : ℚ
  latitude : String
  longitude : String

/-- `Track.__init__`: missing (`None`) coordinates fall back to the
configured home location read from `get_config()`. -/
def Track.make (cfg : Config) (temperature : ℚ)
    (latitude longitude : Option String) : Track :=
  ⟨temperature, latitude.getD cfg.homeLat, longitude.getD cfg.homeLon⟩

/-- `Track()`: the default/idle track (temperature 0, home coordinates). -/
def Track.idle (cfg : Config) : Track := Track.make cfg 0 none none

/-- Python `s.replace(c, '')`: removes every occurrence of `c`. -/
def pyRemoveAll (c : Char) (s : String) : String :=
  ⟨s.data.filter (fun d => d != c)⟩

def pyStripList (l : List Char) : List Char :=
  ((l.dropWhile Char.isWhitespace).reverse.dropWhile Char.isWhitespace).reverse

/-- Python `s.strip()`: drop whitespace from both ends. -/
def pyStrip (s : String) : String := ⟨pyStripList s.data⟩

/-- The coordinate normalization of `Track.attributes`:
`s.replace('m', '').strip()`. -/
def normalizeCoord (s : String) : String := pyStrip (pyRemoveAll 'm' s)

/-- `Track.attributes`: the latitude/longitude JSON payload. -/
def Track.attributes (t : Track) : Val :=
  .vattrs (normalizeCoord t.latitude) (normalizeCoord t.longitude)

/-- `Track.state`: the temperature JSON payload. -/
def Track.state (t : Track) : Val := .vtemp t.temperature

/-- The fixed availability topic used by `birth` and `will`. -/
def statusTopic : String := "homeassistant/status"

/-- `MQTT.birth`: publish "online" to the availability topic. -/
def birthMsg : Msg := (statusTopic, .vstr "online")

/-- `MQTT.will`: publish "offline" to the availability topic. -/
def willMsg : Msg := (statusTopic, .vstr "offline")

/-- The `mqttRC` table of connection-result messages. -/
def mqttRC : List String :=
  ["Connection successful",
   "Connection refused - incorrect protocol version",
   "Connection refused - invalid client identifier",
   "Connection refused - server unavailable",
   "Connection refused - bad username or password",
   "Connection refused - not authorised"]

/-- `MQTT.publish`: the base topic is concatenated with the topic part. -/
def mqttPublish (base topicPart : String) (data : Val) : Msg :=
  (base ++ topicPart, data)

/-- `MQTT.on_connect`: `self.mqttRC[rc]` is indexed first (an `IndexError`,
modelled as `Except.error`, for `rc` outside the table, leaving the flag
untouched); `rc == 0` sets the connected flag, any other code only logs.
No message is published by the callback.  The result is the new flag value
paired with the messages published. -/
def on_connect (rc : ℕ) (connected : Bool) : Except Unit (Bool × List Msg) :=
  if rc < mqttRC.length then
    if rc == 0 then .ok (true, []) else .ok (connected, [])
  else .error ()

/-- `MQTT.on_disconnect`: always clears the connected flag; `rc` only
selects the log message. -/
def on_disconnect (rc : ℕ) (connected : Bool) : Bool × List Msg :=
  (false, [])

/-- `MQTT.__init__` after `loop_start()`: `connect()` then `birth()` inside
one `try`.  If the socket connect raises, `birth()` is skipped and the
exception is only logged. -/
def mqttInitEmissions (socketOk : Bool) : List Msg :=
  if socketOk then [birthMsg] else []

/-- A connection-lifecycle callback invocation delivered by the transport. -/
inductive CbEvent where
  | connAck (rc : ℕ) : CbEvent
  | discon (rc : ℕ) : CbEvent
deriving DecidableEq

/-- One callback delivery: thread the connected flag, collect published
messages; an exception escaping the callback leaves the flag untouched. -/
def mqttStep (acc : Bool × List Msg) : CbEvent → Bool × List Msg
  | .connAck rc =>
    match on_connect rc acc.1 with
    | .ok (st, ms) => (st, acc.2 ++ ms)
    | .error _ => (acc.1, acc.2)
  | .discon rc => ((on_disconnect rc acc.1).1, acc.2 ++ (on_disconnect rc acc.1).2)

/-- Run the client: initialization followed by a sequence of callbacks,
threading the connected flag and collecting every published message. -/
def mqttRun (socketOk : Bool) (cbs : List CbEvent) : Bool × List Msg :=
  cbs.foldl mqttStep (false, mqttInitEmissions socketOk)

/-- Number of birth announcements in a message list. -/
def birthCount (ms : List Msg) : ℕ := ms.count birthMsg

/-- Number of successful-connect callbacks in an event list. -/
def successfulConnects (cbs : List CbEvent) : ℕ :=
  cbs.countP (fun e => match e with | .connAck rc => rc == 0 | .discon _ => false)

/-- `send_telemetry`: track attributes, then each car sensor, then each
session sensor, then the track state. -/
def send_telemetry (base : String) (session : Session) (car : Car)
    (track : Track) (now : ℕ) : List Msg :=
  [mqttPublish base "track/attributes" track.attributes]
  ++ car.sensors.map (fun kv => mqttPublish base ("car/" ++ kv.1) kv.2)
  ++ (session.sensors now).map
      (fun kv => mqttPublish base ("session/" ++ kv.1) kv.2)
  ++ [mqttPublish base "track" track.state]

/-- One snapshot of the live telemetry fields consumed by `process`. -/
structure Snap where
  session : Session
  car : Car
  temperature : ℚ
  lat : String
  lon : String

/-- One iteration of the `process` loop: a live tick builds the three models
from the snapshot, an unavailable tick publishes the idle models
(`Session()`, `Car()`, `Track()`). -/
def tickCycle (cfg : Config) (base : String) (now : ℕ) :
    Option Snap → List Msg
  | some sn =>
    send_telemetry base sn.session sn.car
      (Track.make cfg sn.temperature (some sn.lat) (some sn.lon)) now
  | none => send_telemetry base Session.idle Car.idle (Track.idle cfg) now

/-- The idle-telemetry publish cycle. -/
def idleCycle (cfg : Config) (base : String) (now : ℕ) : List Msg :=
  send_telemetry base Session.idle Car.idle (Track.idle cfg) now

/-- The messages published by the `process` loop over a list of ticks, each
tick given as `none` (source unavailable) or a live snapshot. -/
def processTrace (cfg : Config) (base : String) (now : ℕ)
    (ticks : List (Option Snap)) : List (List Msg) :=
  ticks.map (tickCycle cfg base now)

/-- An operation observed on the transport. -/
inductive Event where
  | pub (m : Msg) : Event
  | disconnect : Event
deriving DecidableEq

/-- The `KeyboardInterrupt` handler in `main`: one idle `send_telemetry`,
then `mqtt.will()`, then `loop_stop()` (no transport operation) and
`disconnect()`. -/
def shutdownTrace (cfg : Config) (base : String) (now : ℕ) : List Event :=
  (idleCycle cfg base now).map Event.pub ++ [Event.pub willMsg, Event.disconnect]

/-- The topic parts passed to `mqtt.publish` by `send_telemetry`, in
publication order. -/
def topicParts : List String :=
  ["track/attributes",
   "car/rpm", "car/speed", "car/fuel_percent", "car/gear",
   "session/event_type", "session/session_laps_total",
   "session/session_time_remain", "session/session_state",
   "session/lap_best_lap_time", "session/current_session_type",
   "session/lap_completed", "session/player_car_class_position",
   "session/track_name", "session/car_name",
   "track"]

/-- The normalization described by the spec's words, for comparison with
`normalizeCoord`: strip surrounding whitespace and the trailing unit
suffix, and nothing else. -/
def stripUnitSuffixSpec (s : String) : String :=
  let t := pyStripList s.data
  if t.getLast? = some 'm' then ⟨pyStripList t.dropLast⟩ else ⟨t⟩

/-! ### Helper lemmas -/

theorem ratFloor_eq (q : ℚ) : q.floor = ⌊q⌋ :=
  (Rat.floor_def' q).trans Rat.floor_def.symm

theorem rndHalfEven_nonneg {q : ℚ} (h : 0 ≤ q) : 0 ≤ rndHalfEven q := by
  unfold rndHalfEven
  rw [ratFloor_eq]
  have h0 : (0:ℤ) ≤ ⌊q⌋ := Int.floor_nonneg.mpr h
  split_ifs <;> omega

theorem rndHalfEven_le {q : ℚ} {B : ℤ} (h : q ≤ B) : rndHalfEven q ≤ B := by
  unfold rndHalfEven
  rw [ratFloor_eq]
  have hfl : ⌊q⌋ ≤ B := by
    have h2 := Int.floor_le_floor h
    rwa [Int.floor_intCast] at h2
  split_ifs with h1 h2 h3
  · exact hfl
  · have hlt : (⌊q⌋ : ℚ) < q := by push_neg at h1; linarith
    have hltB : ⌊q⌋ < B := by exact_mod_cast hlt.trans_le h
    omega
  · exact hfl
  · have hlt : (⌊q⌋ : ℚ) < q := by push_neg at h1; linarith
    have hltB : ⌊q⌋ < B := by exact_mod_cast hlt.trans_le h
    omega

theorem pyRound1_nonneg {q : ℚ} (h : 0 ≤ q) : 0 ≤ pyRound1 q := by
  unfold pyRound1
  apply div_nonneg _ (by norm_num)
  exact_mod_cast rndHalfEven_nonneg (mul_nonneg h (by norm_num))

theorem pyRound1_le {q : ℚ} {B : ℤ} (h : q ≤ B) : pyRound1 q ≤ B := by
  unfold pyRound1
  rw [div_le_iff₀ (by norm_num : (0:ℚ) < 10)]
  have h10 : q * 10 ≤ ((B * 10 : ℤ) : ℚ) := by push_cast; linarith
  have hle := rndHalfEven_le h10
  calc (rndHalfEven (q * 10) : ℚ) ≤ ((B * 10 : ℤ) : ℚ) := by exact_mod_cast hle
    _ = (B : ℚ) * 10 := by push_cast; ring

theorem pyTrunc_speed_example : pyTrunc ((2778/100 : ℚ) * (36/10)) = 100 := by
  have h : (0:ℚ) ≤ 2778/100 * (36/10) := by norm_num
  rw [pyTrunc, if_pos h, ratFloor_eq]
  norm_num

theorem car_sensors_eval (c : Car) :
    Car.sensors c =
      [("rpm", .vint (pyTrunc c.rpm)),
       ("speed", .vint (pyTrunc (c.speed * (36/10)))),
       ("fuel_percent", .vrat (pyRound1 (c.fuel_percent * 100))),
       ("gear", .vint c.gear)] := by
  simp [Car.sensors, dictOfList, dictInsert]

theorem session_sensors_eval (s : Session) (now : ℕ) :
    Session.sensors s now =
      [("event_type", optStr s.event_type),
       ("session_laps_total", optInt s.session_laps_total),
       ("session_time_remain", .vstr (hhmmss (s.session_time_remain.getD now))),
       ("session_state", (session_state_mapped s.session_state).1),
       ("lap_best_lap_time", optRat s.lap_best_lap_time),
       ("current_session_type", optStr s.current_session_type),
       ("lap_completed", optInt s.lap_completed),
       ("player_car_class_position", optInt s.player_car_class_position),
       ("track_name", optStr s.track_name),
       ("car_name", optStr s.car_name)] := by
  simp [Session.sensors, dictOfList, dictInsert]

theorem send_telemetry_eval (base : String) (s : Session) (c : Car)
    (t : Track) (now : ℕ) :
    send_telemetry base s c t now =
      [(base ++ "track/attributes", t.attributes),
       (base ++ "car/rpm", .vint (pyTrunc c.rpm)),
       (base ++ "car/speed", .vint (pyTrunc (c.speed * (36/10)))),
       (base ++ "car/fuel_percent", .vrat (pyRound1 (c.fuel_percent * 100))),
       (base ++ "car/gear", .vint c.gear),
       (base ++ "session/event_type", optStr s.event_type),
       (base ++ "session/session_laps_total", optInt s.session_laps_total),
       (base ++ "session/session_time_remain",
         .vstr (hhmmss (s.session_time_remain.getD now))),
       (base ++ "session/session_state", (session_state_mapped s.session_state).1),
       (base ++ "session/lap_best_lap_time", optRat s.lap_best_lap_time),
       (base ++ "session/current_session_type", optStr s.current_session_type),
       (base ++ "session/lap_completed", optInt s.lap_completed),
       (base ++ "session/player_car_class_position",
         optInt s.player_car_class_position),
       (base ++ "session/track_name", optStr s.track_name),
       (base ++ "session/car_name", optStr s.car_name),
       (base ++ "track", t.state)] := by
  simp [send_telemetry, mqttPublish, Session.sensors, Car.sensors,
    dictOfList, dictInsert]

theorem send_telemetry_topics (base : String) (s : Session) (c : Car)
    (t : Track) (now : ℕ) :
    (send_telemetry base s c t now).map Prod.fst =
      topicParts.map (fun part => base ++ part) := by
  rw [send_telemetry_eval]
  simp [topicParts]

theorem strAppend_right_inj {base x y : String} :
    base ++ x = base ++ y ↔ x = y := by
  constructor
  · intro h
    have hd : base.data ++ x.data = base.data ++ y.data := by
      rw [← String.data_append, ← String.data_append, h]
    have hxy := List.append_cancel_left hd
    cases x; cases y
    exact congrArg String.mk hxy
  · intro h; rw [h]

theorem append_ne_status {base s : String}
    (h : ¬ (s.data <:+ statusTopic.data)) : base ++ s ≠ statusTopic := by
  intro he
  exact h ⟨base.data, by rw [← String.data_append, he]⟩

theorem send_telemetry_topic_ne_status (base : String) (s : Session)
    (c : Car) (t : Track) (now : ℕ) :
    ∀ m ∈ send_telemetry base s c t now, m.1 ≠ statusTopic := by
  intro m hm
  have h1 : m.1 ∈ (send_telemetry base s c t now).map Prod.fst :=
    List.mem_map_of_mem _ hm
  rw [send_telemetry_topics] at h1
  obtain ⟨part, hp, heq⟩ := List.mem_map.mp h1
  rw [← heq]
  have hns : ∀ p ∈ topicParts, ¬ (p.data <:+ statusTopic.data) := by decide
  exact append_ne_status (hns part hp)

theorem head?_dropWhile_not {α} (p : α → Bool) (l : List α) {c : α}
    (h : (l.dropWhile p).head? = some c) : p c = false := by
  induction l with
  | nil => simp at h
  | cons a as ih =>
    rw [List.dropWhile_cons] at h
    split at h
    · exact ih h
    · next hpa =>
      simp only [List.head?_cons, Option.some.injEq] at h
      subst h
      simpa using hpa

theorem getLast?_dropWhile {α} (p : α → Bool) (l : List α) {c : α}
    (h : (l.dropWhile p).getLast? = some c) : l.getLast? = some c := by
  obtain ⟨t, ht⟩ := List.dropWhile_suffix (l := l) p
  rw [← ht, List.getLast?_append, h]
  rfl

theorem pyStripList_subset (l : List Char) : pyStripList l ⊆ l := by
  intro c hc
  unfold pyStripList at hc
  rw [List.mem_reverse] at hc
  have hc2 := (List.dropWhile_sublist _).subset hc
  rw [List.mem_reverse] at hc2
  exact (List.dropWhile_sublist _).subset hc2

theorem pyStripList_head {l : List Char} {c : Char}
    (h : (pyStripList l).head? = some c) : c.isWhitespace = false := by
  unfold pyStripList at h
  rw [List.head?_reverse] at h
  have h2 := getLast?_dropWhile _ _ h
  rw [List.getLast?_reverse] at h2
  exact head?_dropWhile_not _ _ h2

theorem pyStripList_getLast {l : List Char} {c : Char}
    (h : (pyStripList l).getLast? = some c) : c.isWhitespace = false := by
  unfold pyStripList at h
  rw [List.getLast?_reverse] at h
  exact head?_dropWhile_not _ _ h

theorem mqttStep_snd (acc : Bool × List Msg) (e : CbEvent) :
    (mqttStep acc e).2 = acc.2 := by
  cases e with
  | connAck rc =>
    simp only [mqttStep, on_connect]
    by_cases h6 : rc < mqttRC.length
    · rw [if_pos h6]
      by_cases h0 : (rc == 0) = true
      · rw [if_pos h0]; simp
      · rw [if_neg h0]; simp
    · rw [if_neg h6]
  | discon rc => simp [mqttStep, on_disconnect]

theorem mqttRun_msgs (socketOk : Bool) (cbs : List CbEvent) :
    (mqttRun socketOk cbs).2 = mqttInitEmissions socketOk := by
  unfold mqttRun
  suffices h : ∀ acc : Bool × List Msg, (cbs.foldl mqttStep acc).2 = acc.2 by
    exact h _
  induction cbs with
  | nil => intro acc; rfl
  | cons e es ih => intro acc; rw [List.foldl_cons, ih, mqttStep_snd]

/-! ### Claim theorems -/

/-- Claim C1: `Car.sensors` publishes rpm truncated to an integer, gear as
an integer, speed converted m/s→km/h by the exact factor 3.6 and truncated
to an integer (input 27.78 m/s yields 100 km/h), and the fuel fraction
multiplied by 100 and rounded to one decimal, which lies in [0,100]
whenever the fraction lies in [0,1]. -/
theorem C1_car_sensor_normalization (c : Car)
    (h0 : 0 ≤ c.fuel_percent) (h1 : c.fuel_percent ≤ 1) :
    Car.sensors c =
      [("rpm", Val.vint (pyTrunc c.rpm)),
       ("speed", Val.vint (pyTrunc (c.speed * (36/10)))),
       ("fuel_percent", Val.vrat (pyRound1 (c.fuel_percent * 100))),
       ("gear", Val.vint c.gear)]
    ∧ pyTrunc ((2778/100 : ℚ) * (36/10)) = 100
    ∧ 0 ≤ pyRound1 (c.fuel_percent * 100)
    ∧ pyRound1 (c.fuel_percent * 100) ≤ 100 := by
  refine ⟨car_sensors_eval c, pyTrunc_speed_example,
    pyRound1_nonneg (mul_nonneg h0 (by norm_num)), ?_⟩
  have h100 : c.fuel_percent * 100 ≤ ((100 : ℤ) : ℚ) := by push_cast; linarith
  have := pyRound1_le h100
  exact_mod_cast this

/-- Witness for C1 at the idle car (fuel fraction 0). -/
theorem C1_car_sensor_normalization_witness :
    (0 : ℚ) ≤ Car.idle.fuel_percent ∧ Car.idle.fuel_percent ≤ 1
    ∧ 0 ≤ pyRound1 (Car.idle.fuel_percent * 100)
    ∧ pyRound1 (Car.idle.fuel_percent * 100) ≤ 100 :=
  ⟨le_refl 0, zero_le_one,
   (C1_car_sensor_normalization Car.idle (le_refl 0) zero_le_one).2.2⟩

/-- Claim C2 counterexample: in the idle cycle the absent
`session_time_remain` is serialized as the current clock formatted
"HH:MM:SS" (clock 3661 s gives "01:01:01", since `time.gmtime(None)` is the
current time), not as a null/empty marker. -/
theorem C2_counterexample :
    (Session.sensors Session.idle 3661).lookup "session_time_remain"
        = some (Val.vstr "01:01:01")
    ∧ Val.vstr "01:01:01" ≠ Val.vnull := by decide

/-- Claim C2 (amended): N consecutive unavailable ticks produce exactly N
idle publish cycles of all 16 messages, and in the idle cycle every absent
optional session field serializes as the null marker except
`session_time_remain`, which serializes as the current clock in HH:MM:SS. -/
theorem C2_idle_ticks_amended (cfg : Config) (base : String) (now n : ℕ) :
    processTrace cfg base now (List.replicate n none)
        = List.replicate n (idleCycle cfg base now)
    ∧ (idleCycle cfg base now).length = 16
    ∧ ∀ kv ∈ Session.sensors Session.idle now,
        kv.2 = Val.vnull ∨ kv = ("session_time_remain", Val.vstr (hhmmss now)) := by
  refine ⟨?_, ?_, ?_⟩
  · simp [processTrace, List.map_replicate, tickCycle, idleCycle]
  · rw [idleCycle, send_telemetry_eval]; rfl
  · intro kv hkv
    rw [session_sensors_eval] at hkv
    simp only [Session.idle, optStr, optInt, optRat, session_state_mapped,
      Option.getD] at hkv
    simp only [List.mem_cons, List.not_mem_nil, or_false] at hkv
    rcases hkv with rfl|rfl|rfl|rfl|rfl|rfl|rfl|rfl|rfl|rfl <;> simp

/-- Witness for C2 (amended) at a concrete idle field. -/
theorem C2_idle_ticks_amended_witness :
    (("event_type", Val.vnull) ∈ Session.sensors Session.idle 0)
    ∧ ((("event_type", Val.vnull) : String × Val).2 = Val.vnull
        ∨ (("event_type", Val.vnull) : String × Val)
            = ("session_time_remain", Val.vstr (hhmmss 0))) :=
  ⟨by decide,
   (C2_idle_ticks_amended ⟨"60.0", "10.0", "base/"⟩ "base/" 0 0).2.2 _ (by decide)⟩

/-- Claim C3: mapping a present session-state code never raises: code 4
yields the label "Racing"; any code whose table subscript raises `KeyError`
(such as 99) is passed through as its raw value with a logged warning. -/
theorem C3_session_state_mapping (k : ℤ)
    (hk : sessionSateMapLookup k = .error ()) :
    session_state_mapped (some 4) = (Val.vstr "Racing", false)
    ∧ session_state_mapped (some k) = (Val.vint k, true)
    ∧ session_state_mapped (some 99) = (Val.vint 99, true) := by
  refine ⟨by decide, ?_, by decide⟩
  have hk0 : k ≠ 0 := by
    intro h0
    subst h0
    simp [sessionSateMapLookup, sessionSateMap, List.lookup] at hk
  have hbeq : (k == 0) = false := by simpa using hk0
  simp [session_state_mapped, hbeq, hk]

/-- Witness for C3 at the unmapped code 99. -/
theorem C3_session_state_mapping_witness :
    sessionSateMapLookup 99 = .error ()
    ∧ session_state_mapped (some 99) = (Val.vint 99, true) :=
  ⟨rfl, (C3_session_state_mapping 99 rfl).2.1⟩

/-- Claim C4: evaluation at the failing input: the truthiness guard
`if self.session_state:` makes code 0 publish the absent value even though
the table maps 0 to "Venter" (that entry is unreachable); codes 1–6 map to
their configured labels. -/
theorem C4_code0_divergence :
    session_state_mapped (some 0) = (Val.vnull, false)
    ∧ sessionSateMap.lookup 0 = some "Venter"
    ∧ Val.vnull ≠ Val.vstr "Venter"
    ∧ session_state_mapped (some 1) = (Val.vstr "Gjør seg klar", false)
    ∧ session_state_mapped (some 2) = (Val.vstr "Oppvarming", false)
    ∧ session_state_mapped (some 3) = (Val.vstr "Kjører til start", false)
    ∧ session_state_mapped (some 4) = (Val.vstr "Racing", false)
    ∧ session_state_mapped (some 5) = (Val.vstr "I mål", false)
    ∧ session_state_mapped (some 6) = (Val.vstr "Cooldown", false) := by decide

/-- Claim C5: the interrupt handler's transport trace is exactly one idle
publish set (16 messages, none of them to the availability topic), then the
single will announcement, then the disconnect, in that order. -/
theorem C5_shutdown_sequence (cfg : Config) (base : String) (now : ℕ) :
    shutdownTrace cfg base now
        = (idleCycle cfg base now).map Event.pub
          ++ [Event.pub willMsg, Event.disconnect]
    ∧ (idleCycle cfg base now).length = 16
    ∧ (∀ m ∈ idleCycle cfg base now, m.1 ≠ statusTopic)
    ∧ (shutdownTrace cfg base now).getLast? = some Event.disconnect := by
  refine ⟨rfl, ?_, ?_, ?_⟩
  · rw [idleCycle, send_telemetry_eval]; rfl
  · exact send_telemetry_topic_ne_status base Session.idle Car.idle
      (Track.idle cfg) now
  · simp [shutdownTrace]

/-- Witness for C5 at a concrete configuration and idle message. -/
theorem C5_shutdown_sequence_witness :
    (("base/track/attributes", Val.vattrs "60.0" "10.0")
        ∈ idleCycle ⟨"60.0", "10.0", "base/"⟩ "base/" 0)
    ∧ (("base/track/attributes", Val.vattrs "60.0" "10.0") : Msg).1
        ≠ statusTopic :=
  ⟨by decide,
   (C5_shutdown_sequence ⟨"60.0", "10.0", "base/"⟩ "base/" 0).2.2.1 _ (by decide)⟩

/-- Claim C6 counterexample: a run with two successful connects (initial
connect, drop, reconnect) publishes only one birth announcement, because
`on_connect` publishes nothing: births are not one per successful connect. -/
theorem C6_counterexample :
    successfulConnects [CbEvent.connAck 0, CbEvent.discon 0, CbEvent.connAck 0] = 2
    ∧ birthCount
        (mqttRun true [CbEvent.connAck 0, CbEvent.discon 0, CbEvent.connAck 0]).2 = 1
    ∧ ¬ (2 = 1) := by decide

/-- Claim C6 (amended): the birth announcement is published exactly once,
by `__init__` immediately after a successful socket connect (and not at all
if that connect raises); connection callbacks, including successful
reconnects, publish nothing further. -/
theorem C6_birth_once_amended (socketOk : Bool) (cbs : List CbEvent) :
    (mqttRun socketOk cbs).2 = mqttInitEmissions socketOk
    ∧ birthCount (mqttRun true cbs).2 = 1
    ∧ birthCount (mqttRun false cbs).2 = 0 := by
  refine ⟨mqttRun_msgs _ _, ?_, ?_⟩
  · rw [mqttRun_msgs]; decide
  · rw [mqttRun_msgs]; decide

/-- Claim C7: an `on_connect` with a nonzero result code leaves the
connected flag unchanged (so false stays false; out-of-table codes raise
before touching it) and publishes no birth; the flag can become true only
via result code 0; `on_disconnect` always clears it. -/
theorem C7_connect_callback (rc : ℕ) (st : Bool) (hrc : rc ≠ 0) :
    (on_connect rc st = .ok (st, []) ∨ on_connect rc st = .error ())
    ∧ (∀ ms, on_connect rc false ≠ .ok (true, ms))
    ∧ on_disconnect rc st = (false, []) := by
  have hbeq : (rc == 0) = false := by simpa using hrc
  refine ⟨?_, ?_, rfl⟩
  · unfold on_connect
    by_cases h6 : rc < mqttRC.length
    · rw [if_pos h6, if_neg (by simp [hbeq])]
      exact .inl rfl
    · rw [if_neg h6]
      exact .inr rfl
  · intro ms hms
    unfold on_connect at hms
    by_cases h6 : rc < mqttRC.length
    · rw [if_pos h6, if_neg (by simp [hbeq])] at hms
      simp at hms
    · rw [if_neg h6] at hms
      simp at hms

/-- Witness for C7 at the rejected code 3 (server unavailable). -/
theorem C7_connect_callback_witness :
    (3 ≠ 0)
    ∧ (on_connect 3 false = .ok (false, []) ∨ on_connect 3 false = .error ())
    ∧ on_disconnect 3 false = (false, []) :=
  ⟨by decide, (C7_connect_callback 3 false (by decide)).1,
   (C7_connect_callback 3 false (by decide)).2.2⟩

/-- Claim C8 counterexample: normalization removes every occurrence of 'm',
not only a trailing unit suffix: "m1" normalizes to "1", while stripping
only the suffix and surrounding whitespace would leave "m1". -/
theorem C8_counterexample :
    normalizeCoord "m1" = "1" ∧ stripUnitSuffixSpec "m1" = "m1"
    ∧ normalizeCoord "m1" ≠ stripUnitSuffixSpec "m1" := by decide

/-- Claim C8 (amended): normalization removes every occurrence of 'm' and
strips surrounding whitespace, applied to each coordinate independently;
for strings without interior 'm' it is exactly whitespace stripping, and
" 45.123m " still normalizes to "45.123", agreeing with suffix-stripping. -/
theorem C8_normalize_amended (s : String) :
    (∀ c ∈ (normalizeCoord s).data, c ≠ 'm')
    ∧ (∀ c, (normalizeCoord s).data.head? = some c → c.isWhitespace = false)
    ∧ (∀ c, (normalizeCoord s).data.getLast? = some c → c.isWhitespace = false)
    ∧ ((∀ c ∈ s.data, c ≠ 'm') → normalizeCoord s = pyStrip s)
    ∧ normalizeCoord " 45.123m " = "45.123"
    ∧ stripUnitSuffixSpec " 45.123m " = "45.123" := by
  refine ⟨?_, ?_, ?_, ?_, by decide, by decide⟩
  · intro c hc
    have hc2 : c ∈ (pyRemoveAll 'm' s).data := pyStripList_subset _ hc
    have hcm := List.of_mem_filter hc2
    simpa using hcm
  · intro c hc
    exact pyStripList_head hc
  · intro c hc
    exact pyStripList_getLast hc
  · intro h
    have hf : s.data.filter (fun d => d != 'm') = s.data :=
      List.filter_eq_self.mpr (fun a ha => by simpa using h a ha)
    show (⟨pyStripList ((pyRemoveAll 'm' s).data)⟩ : String) = ⟨pyStripList s.data⟩
    rw [show (pyRemoveAll 'm' s).data = s.data.filter (fun d => d != 'm') from rfl, hf]

/-- Witness for C8 (amended) at the spec's example coordinate. -/
theorem C8_normalize_amended_witness :
    ('4' ∈ (normalizeCoord " 45.123m ").data ∧ '4' ≠ 'm')
    ∧ ((normalizeCoord " 45.123m ").data.head? = some '4'
        ∧ '4'.isWhitespace = false)
    ∧ ((∀ c ∈ ("45.123" : String).data, c ≠ 'm')
        ∧ normalizeCoord "45.123" = pyStrip "45.123") :=
  ⟨⟨by decide, (C8_normalize_amended " 45.123m ").1 '4' (by decide)⟩,
   ⟨by decide, (C8_normalize_amended " 45.123m ").2.1 '4' (by decide)⟩,
   ⟨by decide, (C8_normalize_amended "45.123").2.2.2.1 (by decide)⟩⟩

/-- Claim C9: a Track built with no live coordinates falls back to the
configured home location, and supplied live coordinates are used instead;
the default/idle Track uses the home location. -/
theorem C9_track_fallback (cfg : Config) (temp : ℚ) (la lo : String) :
    Track.make cfg temp none none = ⟨temp, cfg.homeLat, cfg.homeLon⟩
    ∧ Track.make cfg temp (some la) (some lo) = ⟨temp, la, lo⟩
    ∧ Track.idle cfg = ⟨0, cfg.homeLat, cfg.homeLon⟩ :=
  ⟨rfl, rfl, rfl⟩

/-- Claim C10: every cycle, live or idle, publishes exactly 16 messages in
the fixed order track/attributes, the four car topics, the ten session
topics (session_state once, at its first-insertion position, carrying the
mapped label and never additionally the raw code), then the track summary. -/
theorem C10_telemetry_shape (base : String) (s : Session) (c : Car)
    (t : Track) (now : ℕ) :
    (send_telemetry base s c t now).map Prod.fst
        = topicParts.map (fun part => base ++ part)
    ∧ (send_telemetry base s c t now).length = 16
    ∧ ((send_telemetry base s c t now).map Prod.fst).count
        (base ++ "session/session_state") = 1
    ∧ (send_telemetry base s c t now)[8]? =
        some (base ++ "session/session_state",
              (session_state_mapped s.session_state).1) := by
  refine ⟨send_telemetry_topics base s c t now, ?_, ?_, ?_⟩
  · rw [send_telemetry_eval]; rfl
  · rw [send_telemetry_topics]
    have hinj : Function.Injective (fun part => base ++ part) :=
      fun a b h => strAppend_right_inj.mp h
    have hc := List.count_map_of_injective topicParts
      (fun part => base ++ part) hinj "session/session_state"
    rw [hc]
    decide
  · rw [send_telemetry_eval]; rfl

end IHomeRacing
